import Mathlib

/-!
Verification of the Slack moderation bot (`lecture_slack_inspection`).

This file gives a shallow embedding, in Lean 4, of the parts of the code base
that the specification's testable properties talk about:

* the three-stage violation detector
  (`src/lambda/app_inspect/services/violation_detector.py`),
* the Notion ledger dedup helpers (`src/app/services/notion_client.py`),
* the interactive action resolver and the approve/dismiss handlers
  (`src/lambda/app_alert/services/actions.py`),
* the reminder sweep (`src/lambda/app_remind/services/reminder.py`), and
* the inbound inspection handler (`src/lambda/app_inspect/handler.py`).

Modelling conventions, used throughout:

* Python strings are modelled by `String` (sequences of code points; slicing
  `s[:n]` is `String.take n`, `str.strip` is `String.trim`).
* Python truthiness on optional strings (`if not x:`) is modelled by
  `pyTruthy`, which treats `None` and `""` as falsy.
* Calls into the Python standard library's regex and JSON machinery and into
  external providers (Slack, Notion, OpenAI) are modelled as parameters of an
  environment record: the code under verification is deterministic given their
  results.  A regex probe returns `Option Bool` where `none` models
  `re.error` being raised for a malformed pattern.
* Side effects are made explicit: every function that performs external calls
  returns, besides its value, the list of calls it attempted, in order.
* Exceptions: every Python `try`/`except` is compiled away into the total
  function that the handler actually denotes; an operation that may raise and
  is *not* guarded is modelled so that the claim's hypotheses exclude it (and
  this is noted where it happens).
* IEEE-754 floating point arithmetic is idealised as exact arithmetic: `ℚ`
  for the JSON-carried confidences, `ℝ` for the embedding geometry (so
  `math.sqrt` is `Real.sqrt` and `round(x, 3)` is an abstract parameter).
-/

/-- Python truthiness of an optional string: `None` and `""` are falsy. -/
def pyTruthy (o : Option String) : Bool :=
  o.getD "" != ""

/-- `o or default` on an optional string: replaces `None`/`""` by a default. -/
def pyOrElse (o : Option String) (d : String) : String :=
  match o with
  | some s => if s = "" then d else s
  | none => d

/-! ## Embedding geometry (`ViolationDetector._cosine_sim`)

From `src/lambda/app_inspect/services/violation_detector.py` lines 267-271
(the copy in `src/app/services/violation_detector.py` lines 165-169 is
identical).  Vectors are lists of reals; `zip` truncates to the shorter list
exactly as Python's `zip` does. -/

/-- `sum(a * b for a, b in zip(v1, v2))`. -/
def dotList (v1 v2 : List ℝ) : ℝ :=
  ((v1.zip v2).map fun p => p.1 * p.2).sum

/-- `sum(a * a for a in v)`, the squared Euclidean norm. -/
def sumSq (v : List ℝ) : ℝ :=
  (v.map fun a => a * a).sum

/-- `_cosine_sim`: `dot / (n1 * n2) if n1 and n2 else 0.0` where
`n1 = math.sqrt(sum(a*a for a in v1))` and `n2` likewise; a float is falsy
exactly when it is zero. -/
noncomputable def cosine_sim (v1 v2 : List ℝ) : ℝ :=
  let dot := dotList v1 v2
  let n1 := Real.sqrt (sumSq v1)
  let n2 := Real.sqrt (sumSq v2)
  if n1 = 0 ∨ n2 = 0 then 0 else dot / (n1 * n2)

/-! ## Three-stage violation detector

From `src/lambda/app_inspect/services/violation_detector.py` (`detect`,
`_check_ng_patterns`, `_find_relevant_articles`, `_judge_by_llm`,
`_normalize_article_id`). -/

/-- One entry of `ng_patterns.json` (`patterns` key): `pattern`, `article_id`
and `category` are accessed with `p[...]`, `courses` with
`p.get("courses", ["ALL"])`. -/
structure NgPattern where
  pattern : String
  article_id : String
  category : String
  courses : Option (List String)
deriving Repr, DecidableEq

/-- One entry of `articles.json` (`articles` key).  `id` and `content` are
indexed directly; `article`, `keywords` and `courses` are read with `.get`. -/
structure Article where
  id : String
  article : Option String
  category : String
  content : String
  keywords : Option (List String)
  courses : Option (List String)
deriving Repr, DecidableEq

/-- The dict returned by `_check_ng_patterns` on a hit. -/
structure NgMatch where
  pattern : String
  article_id : String
  category : String
deriving Repr, DecidableEq

/-- `DetectionResult` dataclass. -/
structure DetectionResult where
  is_violation : Bool
  confidence : ℚ
  method : String
  article_id : Option String
  category : Option String
  reason : String
  step_stopped : Nat
deriving Repr, DecidableEq

/-- The dict `_judge_by_llm` returns (always fully populated). -/
structure JudgeVerdict where
  is_violation : Bool
  confidence : ℚ
  article_id : Option String
  category : Option String
  reason : String
deriving Repr, DecidableEq

/-- A JSON object produced by `json.loads` on the model output, projected to
the fields `_judge_by_llm` reads with `r.get(...)`; a missing key is `none`
(a JSON `null` behaves the same under `r.get`). -/
structure JudgeJson where
  is_violation : Option Bool
  confidence : Option ℚ
  article_id : Option String
  category : Option String
  reason : Option String
deriving Repr, DecidableEq

/-- Outcome of `self.client.chat.completions.create(...)` as observed by
`_judge_by_llm`: either the call raised (network error etc.), or it returned
message content; `content` carries
`(resp.choices[0].message.content or "").strip()`, i.e. the already-stripped
text, with `""` for an empty or `None` message. -/
inductive LlmOutcome where
  | raise (err : String)
  | content (s : String)
deriving Repr, DecidableEq

/-- External calls the detector can attempt. -/
inductive DetectCall where
  | embedCall (text : String)
  | chatCall
deriving Repr, DecidableEq

/-- The standard-library / provider services the detector depends on.
`rmatch p t` models `re.search(p, t, re.IGNORECASE)`: `some true` a match,
`some false` no match, `none` a `re.error` raised for a malformed pattern.
`jsonParse` models `json.loads` on the model output: `.error e` covers both
invalid JSON and a non-dict result (whose subsequent `.get` raises), `e`
being the exception text.  `round3` models Python's `round(x, 3)`. -/
structure DetectEnv where
  rmatch : String → String → Option Bool
  embed : String → List ℝ
  round3 : ℝ → ℝ
  jsonParse : String → Except String JudgeJson
  llmOutcome : LlmOutcome
  extractIdPrefix : String → Option String

/-- `_check_ng_patterns`: scan the pattern list in declaration order; skip a
pattern when a (truthy) course is given and the pattern's courses contain
neither `"ALL"` nor that course; a `re.error` (`rmatch _ _ = none`) is
swallowed by the `try`/`except` and the scan continues. -/
def check_ng_patterns (rmatch : String → String → Option Bool)
    (patterns : List NgPattern) (text : String) (course? : Option String) :
    Option NgMatch :=
  match patterns with
  | [] => none
  | p :: rest =>
    let courses := p.courses.getD ["ALL"]
    let skipped :=
      match course? with
      | some c => c != "" && !courses.contains "ALL" && !courses.contains c
      | none => false
    if skipped then check_ng_patterns rmatch rest text course?
    else
      match rmatch p.pattern text with
      | some true => some ⟨p.pattern, p.article_id, p.category⟩
      | _ => check_ng_patterns rmatch rest text course?

/-- `self._article_title_by_id` (a dict comprehension, last duplicate id
wins), looked up at `aid`: the value stored is `a.get("article", a["id"])`. -/
def article_title_by_id (articles : List Article) (aid : String) :
    Option String :=
  (articles.reverse.find? fun a => a.id == aid).map fun a => a.article.getD a.id

/-- `self._article_id_by_title` (comprehension over articles with a truthy
`article` name, last wins), looked up at a display name. -/
def article_id_by_title (articles : List Article) (t : String) :
    Option String :=
  (articles.reverse.find? fun a => pyTruthy a.article && a.article.getD "" == t).map
    fun a => a.id

/-- `_normalize_article_id`: `None`/`""` stays `None`; otherwise strip, chop
to the leading `letters-digits` token if the regex matches
(`extractIdPrefix` models `re.match(r"^([A-Za-z]+-\d+)", s)`), and map a
display name back to an id when the string is not an id but is a known
name. -/
def normalize_article_id (extractIdPrefix : String → Option String)
    (articles : List Article) (article_id? : Option String) : Option String :=
  match article_id? with
  | none => none
  | some s0 =>
    if s0 = "" then none
    else
      let s1 := s0.trim
      let s2 := (extractIdPrefix s1).getD s1
      let s3 :=
        if (article_title_by_id articles s2).isNone then
          match article_id_by_title articles s2 with
          | some i => i
          | none => s2
        else s2
      some s3

/-- `_judge_by_llm`: on a provider exception or a JSON parse failure inside
the `try`, return the safe default with confidence `0`; empty content skips
`json.loads` (`json.loads(content) if content else {}`) and takes every
`r.get` default, notably confidence `0.5`. -/
def judge_by_llm (jsonParse : String → Except String JudgeJson)
    (outcome : LlmOutcome) : JudgeVerdict :=
  match outcome with
  | .raise e => ⟨false, 0, none, none, "LLM判定エラー: " ++ e⟩
  | .content s =>
    if s = "" then ⟨false, 1/2, none, none, ""⟩
    else
      match jsonParse s with
      | .error e => ⟨false, 0, none, none, "LLM判定エラー: " ++ e⟩
      | .ok r =>
        ⟨r.is_violation.getD false, r.confidence.getD (1/2), r.article_id,
          r.category, r.reason.getD ""⟩

/-- The dicts `_find_relevant_articles` hands to the LLM stage. -/
structure RelevantArticle where
  id : String
  article : Option String
  category : String
  content : String
  similarity : ℝ

/-- The per-instance embedding cache `self._embedding_cache` (keys are
article ids; an id is inserted at most once, so `lookup` is dict access). -/
abbrev EmbCache := List (String × List ℝ)

/-- `f"{a['content']} {' '.join(a.get('keywords', []))}"`. -/
def articleEmbedText (a : Article) : String :=
  a.content ++ " " ++ String.intercalate " " (a.keywords.getD [])

/-- The scoring loop of `_find_relevant_articles`: for each candidate compute
(or fetch from the cache) the article embedding — a cache miss is one
`embeddings.create` call — and score it against the query vector. -/
noncomputable def scoreArticles (env : DetectEnv) (textVec : List ℝ) :
    List Article → EmbCache → List (Article × ℝ) × EmbCache × List DetectCall
  | [], cache => ([], cache, [])
  | a :: rest, cache =>
    match cache.lookup a.id with
    | some vec =>
      let r := scoreArticles env textVec rest cache
      ((a, cosine_sim textVec vec) :: r.1, r.2.1, r.2.2)
    | none =>
      let vec := env.embed (articleEmbedText a)
      let r := scoreArticles env textVec rest (cache ++ [(a.id, vec)])
      ((a, cosine_sim textVec vec) :: r.1, r.2.1,
        .embedCall (articleEmbedText a) :: r.2.2)

/-- Result of `_find_relevant_articles` together with the updated cache and
the provider calls it made. -/
structure RetrievalOutput where
  relevant : List RelevantArticle
  cache : EmbCache
  calls : List DetectCall

/-- `_find_relevant_articles`: filter the articles by course applicability
(only when the course is truthy), embed the query text (never cached), score
every candidate, sort by similarity descending (Python's stable sort with
`reverse=True`), and keep the top `top_k`. -/
noncomputable def find_relevant_articles (env : DetectEnv)
    (articles : List Article) (cache : EmbCache) (text : String)
    (course? : Option String) (top_k : Nat) : RetrievalOutput :=
  let arts :=
    match course? with
    | some c =>
      if c = "" then articles
      else articles.filter fun a =>
        (a.courses.getD ["ALL"]).contains "ALL" || (a.courses.getD []).contains c
    | none => articles
  let textVec := env.embed text
  let r := scoreArticles env textVec arts cache
  let sorted := r.1.mergeSort fun x y => decide (x.2 ≥ y.2)
  { relevant := (sorted.take top_k).map fun p =>
      { id := p.1.id, article := p.1.article, category := p.1.category,
        content := p.1.content, similarity := env.round3 p.2 }
    cache := r.2.1
    calls := .embedCall text :: r.2.2 }

/-- Result of `detect` together with the provider calls it attempted and the
updated per-instance embedding cache. -/
structure DetectOutput where
  result : DetectionResult
  calls : List DetectCall
  cache : EmbCache

/-- `ViolationDetector.detect`: Step 1 NG patterns (a hit is decisive:
confidence 1.0, method `"NGワード"`, `step_stopped = 1`, nothing else runs);
`skip_llm` stops after step 1 with a non-violation; otherwise Step 2
retrieval (`top_k = 3`) then Step 3 LLM adjudication (`step_stopped = 3`,
method `"LLM"`). -/
noncomputable def detect (env : DetectEnv) (patterns : List NgPattern)
    (articles : List Article) (cache : EmbCache) (text : String)
    (course? : Option String) (skip_llm : Bool) : DetectOutput :=
  match check_ng_patterns env.rmatch patterns text course? with
  | some m =>
    let aid := m.article_id
    let title? := article_title_by_id articles aid
    let reason0 := "NGパターン検出: " ++ m.pattern.take 50
    let reason :=
      match title? with
      | some t => if t = "" then reason0 else "[" ++ aid ++ " " ++ t ++ "] " ++ reason0
      | none => reason0
    ⟨⟨true, 1, "NGワード", some aid, some m.category, reason, 1⟩, [], cache⟩
  | none =>
    if skip_llm then
      ⟨⟨false, 0, "NGワード", none, none, "NGワードに該当なし", 1⟩, [], cache⟩
    else
      let fr := find_relevant_articles env articles cache text course? 3
      let verdict := judge_by_llm env.jsonParse env.llmOutcome
      let aid? := normalize_article_id env.extractIdPrefix articles verdict.article_id
      let title? :=
        match aid? with
        | some a => if a = "" then none else article_title_by_id articles a
        | none => none
      let reason :=
        match aid?, title? with
        | some a, some t =>
          if a = "" || t = "" then verdict.reason
          else "[" ++ a ++ " " ++ t ++ "] " ++ verdict.reason
        | _, _ => verdict.reason
      ⟨⟨verdict.is_violation, verdict.confidence, "LLM", aid?, verdict.category,
          reason, 3⟩, fr.calls ++ [.chatCall], fr.cache⟩

/-! ## Ledger dedup (`src/app/services/notion_client.py`)

`create_violation_log` titles a record `f"{post_id}: {post_content[:100]}"`,
truncated to 200 characters; `check_duplicate_violation` asks the ledger for
records whose title starts with `f"{message_ts}:"`.  Only the title property
matters for deduplication, so the ledger is modelled as the list of stored
record titles (in creation order); Python strings are modelled as `List Char`
here so that slicing and prefix tests are the list operations. -/

/-- A Python string for the dedup model. -/
abbrev PyStr := List Char

/-- The record title built by `create_violation_log`:
`title = f"{post_id}: {post_content[:100]}"` stored as `title[:200]`. -/
def mkViolationTitle (post_id post_content : PyStr) : PyStr :=
  (post_id ++ (": ".toList) ++ post_content.take 100).take 200

/-- `create_violation_log` as it affects the ledger: one record is appended
whose title is `mkViolationTitle` (the remaining properties do not
participate in deduplication). -/
def create_violation_log (titles : List PyStr) (post_id post_content : PyStr) :
    List PyStr :=
  titles ++ [mkViolationTitle post_id post_content]

/-- `check_duplicate_violation`: the Notion query
`{"property": "投稿内容", "title": {"starts_with": f"{message_ts}:"}}`
returns a non-empty result exactly when some stored title has that prefix. -/
def check_duplicate_violation (titles : List PyStr) (message_ts : PyStr) : Bool :=
  titles.any fun t => (message_ts ++ [':']).isPrefixOf t

/-- The dedup-then-create fragment of one detection pass over a violating
message (`src/lambda/app_inspect/handler.py` lines 130-133 + 160-171):
`if check_duplicate_violation(message_ts): return` else create the record. -/
def detection_pass_dedup (titles : List PyStr) (post_id post_content : PyStr) :
    List PyStr :=
  if check_duplicate_violation titles post_id then titles
  else create_violation_log titles post_id post_content

/-! ## Interactive actions (`src/lambda/app_alert/services/actions.py`) -/

/-- A JSON value, as returned by `json.loads`. -/
inductive JsonVal where
  | null
  | bool (b : Bool)
  | num (q : ℚ)
  | str (s : String)
  | arr (xs : List JsonVal)
  | obj (fields : List (String × JsonVal))


/-- `(payload.get("container") or {})` projection. -/
structure PayloadContainer where
  channel_id : Option String
  message_ts : Option String
deriving Repr, DecidableEq

/-- The raw `value` field of an action element: a string (to be JSON
decoded), or a non-string (handed to `dict(...)`; `some d` if that
conversion succeeds, `none` if it raises). -/
inductive ActionRawValue where
  | str (s : String)
  | nonStr (asDict : Option (List (String × JsonVal)))


/-- One element of the payload's `actions` array. -/
structure SlackActionItem where
  action_id? : Option String
  value? : Option ActionRawValue


/-- An interactive payload, projected to the fields `parse_action_context`
reads.  `stateValues` is `payload["state"]["values"]` flattened to
block id → action id → `selected_option.value` (each `.get ... or` default
collapses a missing level to the empty map). -/
structure BlockActionsPayload where
  type? : Option String
  actions? : Option (List SlackActionItem)
  stateValues : List (String × List (String × Option String))
  container? : Option PayloadContainer


def POLICY_BLOCK_ID : String := "policy_ref_block"

def AID_REGULATION : String := "policy_regulation_select"

def AID_ARTICLE : String := "policy_article_select"

def AID_ITEM : String := "policy_item_select"

/-- `_get_selected_value`. -/
def get_selected_value (p : BlockActionsPayload) (block_id action_id : String) :
    Option String :=
  ((((p.stateValues.lookup block_id).getD []).lookup action_id).getD none)

/-- The `ActionContext` dataclass. -/
structure ActionContext where
  action_id : String
  value : JsonVal
  admin_channel : Option String
  admin_message_ts : Option String
  selected_regulation : Option String := none
  selected_article : Option String := none
  selected_item : Option String := none


/-- `parse_action_context`: reject a payload with an explicit non
`block_actions` type; no (or empty) `actions` yields `None`; only the first
action element is read; its `value` string is JSON-decoded inside
`try`/`except`, any failure yielding the empty dict (`jsonLoads` models
`json.loads`). -/
def parse_action_context (jsonLoads : String → Except String JsonVal)
    (payload : BlockActionsPayload) : Option ActionContext :=
  if (match payload.type? with
      | some t => t != "block_actions"
      | none => false) then none
  else
    match payload.actions?.getD [] with
    | [] => none
    | action :: _ =>
      let action_id := (action.action_id?.getD "")
      let raw :=
        match action.value? with
        | some (.str s) => ActionRawValue.str (if s = "" then "{}" else s)
        | some (.nonStr d) => ActionRawValue.nonStr d
        | none => ActionRawValue.str "{}"
      let value : JsonVal :=
        match raw with
        | .str s =>
          match jsonLoads s with
          | .ok v => v
          | .error _ => .obj []
        | .nonStr (some d) => .obj d
        | .nonStr none => .obj []
      some
        { action_id := action_id
          value := value
          admin_channel := payload.container?.bind (·.channel_id)
          admin_message_ts := payload.container?.bind (·.message_ts)
          selected_regulation := get_selected_value payload POLICY_BLOCK_ID AID_REGULATION
          selected_article := get_selected_value payload POLICY_BLOCK_ID AID_ARTICLE
          selected_item := get_selected_value payload POLICY_BLOCK_ID AID_ITEM }

/-- `None`-or-falsy-string to `None`. -/
def truthyOpt (o : Option String) : Option String :=
  match o with
  | some s => if s = "" then none else some s
  | none => none

/-- `ctx.value.get(k)` for a dict-shaped token (the token contract makes
`value` a JSON object of strings, spec section 6). -/
def tokenGet (v : JsonVal) (k : String) : Option JsonVal :=
  match v with
  | .obj fs => fs.lookup k
  | _ => none

/-- `ctx.value.get(k)` followed by the truthiness test the handlers apply:
yields the string exactly when the field is present, a string, and
non-empty. -/
def tokenGetStr (v : JsonVal) (k : String) : Option String :=
  match tokenGet v k with
  | some (.str s) => if s = "" then none else some s
  | _ => none

/-- `_format_ref`. -/
def format_ref (reg? art? item? : Option String) : String :=
  let regulation := pyOrElse reg? "規約不明"
  if !pyTruthy art? || art?.getD "" == "special" then regulation
  else
    let ref := regulation ++ " 第" ++ art?.getD "" ++ "条"
    match item? with
    | some it =>
      if it != "" && it != "0" && it != "None" then ref ++ " 第" ++ it ++ "項"
      else ref
    | none => ref

/-- `build_warning_text`. -/
def build_warning_text (origin_user? reg? art? item? : Option String) : String :=
  let ref_text := format_ref reg? art? item?
  let mention :=
    match truthyOpt origin_user? with
    | some u => "<@" ++ u ++ "> "
    | none => ""
  mention ++ "松尾研AIEコミュニティ運営事務局です。\n" ++
    "ご投稿頂いた内容は、" ++ ref_text ++
    " に違反する可能性があるため、投稿の削除をお願いいたします " ++
    "(2営業日以内にご対応頂けない場合は、誠に恐縮ですが運営にて削除をさせて頂きます)。\n" ++
    "本コミュニティでは、宣伝や告知に関するご投稿について、いくつかルールを設けさせていただいております。\n" ++
    "つきましては、こちらのコミュニティガイドの参加規約とコミュニケーションルールを今一度ご確認下さいますと幸いです。\n" ++
    "引き続き、松尾研AIEコミュニティをどうぞよろしくお願いいたします。"

/-- External calls an action handler can attempt, in order.  `notionUpdate`
records the page, the new status, whether `warning_sent_at` is being set,
and the responder id passed along; `chatUpdate`'s `text` is the top-level
fallback text of the edit (`"Approved"` / `"Dismissed"`), standing for the
whole block payload built at that site. -/
inductive AlertEffect where
  | postMessage (channel thread_ts text : String)
  | notionUpdate (page status : String) (sets_warning_sent_at : Bool)
      (responder : Option String)
  | chatUpdate (channel ts text : String)
deriving Repr, DecidableEq

/-- Success/failure of the external calls an action handler makes.
`updateOk` is the boolean `NotionClient.update_status` returns — that method
catches its own exceptions (`common/notion_client.py` `_update_page`) and
never raises; the handlers discard this boolean.  `postOk` / `chatUpdateOk`
are whether the Slack calls return normally (raising otherwise). -/
structure AlertEnv where
  postOk : Bool
  updateOk : Bool
  chatUpdateOk : Bool
deriving Repr, DecidableEq

/-- `if responder_id:` guard on the keyword argument. -/
def responderArg (responder_id? : Option String) : Option String :=
  truthyOpt responder_id?

/-- `handle_approve_violation`: missing origin info fails with no side
effects; otherwise post the threaded warning reply (an exception aborts via
the `except`), then — result discarded — update the ledger to Approved with
`warning_sent_at` (and responder when truthy) if the token carries a ledger
key, then edit the admin message if its coordinates are present (an
exception there makes the handler return `False` after all three attempts).
The article lookup in lines 188-198 of `actions.py` only reads static
`articles.json` data and its result is never used, so it contributes no
effect. -/
def handle_approve_violation (env : AlertEnv) (ctx : ActionContext)
    (reply_text : String) (responder_id? : Option String) :
    Bool × List AlertEffect :=
  let origin_channel := tokenGetStr ctx.value "origin_channel"
  let origin_ts := tokenGetStr ctx.value "origin_ts"
  let notion_page_id := tokenGetStr ctx.value "notion_page_id"
  let origin_user := tokenGetStr ctx.value "origin_user"
  match origin_channel, origin_ts with
  | some ch, some ts =>
    let warning_text :=
      build_warning_text origin_user ctx.selected_regulation
        ctx.selected_article ctx.selected_item
    if !env.postOk then (false, [.postMessage ch ts warning_text])
    else
      let ledger : List AlertEffect :=
        match notion_page_id with
        | some pid =>
          [.notionUpdate pid "Approved" true (responderArg responder_id?)]
        | none => []
      match truthyOpt ctx.admin_channel, truthyOpt ctx.admin_message_ts with
      | some ach, some ats =>
        (env.chatUpdateOk,
          .postMessage ch ts warning_text :: ledger ++ [.chatUpdate ach ats "Approved"])
      | _, _ => (true, .postMessage ch ts warning_text :: ledger)
  | _, _ => (false, [])

/-- `handle_dismiss_violation`: never posts to the origin channel; updates
the ledger to Dismissed (recording a truthy responder id) when the token
carries a ledger key; edits the admin message when its coordinates are
present. -/
def handle_dismiss_violation (env : AlertEnv) (ctx : ActionContext)
    (responder_id? : Option String) : Bool × List AlertEffect :=
  let notion_page_id := tokenGetStr ctx.value "notion_page_id"
  let ledger : List AlertEffect :=
    match notion_page_id with
    | some pid => [.notionUpdate pid "Dismissed" false (responderArg responder_id?)]
    | none => []
  match truthyOpt ctx.admin_channel, truthyOpt ctx.admin_message_ts with
  | some ach, some ats => (env.chatUpdateOk, ledger ++ [.chatUpdate ach ats "Dismissed"])
  | _, _ => (true, ledger)

/-! ## Reminder sweep (`src/lambda/app_remind/services/reminder.py`) -/

/-- The dict `NotionClient.extract_reminder_fields` derives from a queried
ledger page (`warning_sent_at` is the explicit 警告送信日時 only, `none` when
unset).  `process_reminders` runs over a list of these. -/
structure RemRecord where
  page_id : String
  post_link : Option String
  warning_sent_at : Option String
  poster : Option String
  title : String
  article_id : Option String
deriving Repr, DecidableEq

/-- External calls the sweep can attempt.  `updateStatus` carries whether
the call sets `warning_sent_at`. -/
inductive RemEffect where
  | sendWarning (channel ts : String)
  | sendReminder (channel ts : String)
  | updateStatus (page status : String) (sets_warning_sent_at : Bool)
  | markReminded (page : String)
deriving Repr, DecidableEq

/-- The `stats` counter dict of `process_reminders`. -/
structure RemStats where
  queried : Nat := 0
  warned : Nat := 0
  skipped_not_elapsed : Nat := 0
  skipped_no_link : Nat := 0
  already_deleted : Nat := 0
  reminded : Nat := 0
  errors : Nat := 0
deriving Repr, DecidableEq

/-- Pointwise sum of two counter vectors. -/
def RemStats.add (a b : RemStats) : RemStats :=
  ⟨a.queried + b.queried, a.warned + b.warned,
    a.skipped_not_elapsed + b.skipped_not_elapsed,
    a.skipped_no_link + b.skipped_no_link,
    a.already_deleted + b.already_deleted, a.reminded + b.reminded,
    a.errors + b.errors⟩

/-- External services of the sweep: `parseLink` is
`NotionClient.parse_slack_link` (a fixed regex extraction over the stored
deep link, yielding channel id, dotted message ts and workspace);
`messageExists` is `check_message_exists` (conversations_history probe, an
API error counting as absent); `warnOk` / `remindOk` are whether the
threaded `chat_postMessage` of `send_warning` / `send_reminder` returns
normally; `isPast w h` is `NotionClient.is_past_threshold`; `markOk` is the
boolean `mark_reminded` returns. -/
structure RemEnv where
  parseLink : Option String → Option (String × String × Option String)
  messageExists : String → String → Bool
  warnOk : String → String → Bool
  remindOk : String → String → Bool
  isPast : String → Nat → Bool
  markOk : String → Bool

/-- The body of the `for page in pages` loop of `process_reminders`: skip on
an unparseable link; a deleted origin message is marked reminded and
skipped; an existing message with `warning_sent_at` unset gets the initial
warning plus a ledger update recording the timestamp (status stays
Approved); otherwise the threshold decides between skipping and sending the
reminder followed by `mark_reminded`.  (The workspace-specific client
resolution only selects credentials and does not change which message is
addressed.) -/
def process_record (env : RemEnv) (dry_run : Bool) (hours : Nat)
    (r : RemRecord) : List RemEffect × RemStats :=
  match env.parseLink r.post_link with
  | none => ([], {skipped_no_link := 1})
  | some (ch, ts, _ws) =>
    if !env.messageExists ch ts then
      ((if dry_run then [] else [.markReminded r.page_id]),
        {already_deleted := 1})
    else
      match r.warning_sent_at with
      | none =>
        if dry_run then ([], {warned := 1})
        else if env.warnOk ch ts then
          ([.sendWarning ch ts, .updateStatus r.page_id "Approved" true],
            {warned := 1})
        else ([.sendWarning ch ts], {errors := 1})
      | some w =>
        if !env.isPast w hours then ([], {skipped_not_elapsed := 1})
        else if dry_run then ([], {reminded := 1})
        else if env.remindOk ch ts then
          ([.sendReminder ch ts, .markReminded r.page_id],
            {reminded := 1, errors := if env.markOk r.page_id then 0 else 1})
        else ([.sendReminder ch ts], {errors := 1})

/-- `process_reminders` over the result of `query_approved_unreminded`
(records with status Approved and reminder-flag false): the per-record
effects in order, and the summed counters with `queried` set to the batch
size. -/
def process_reminders (env : RemEnv) (dry_run : Bool) (hours : Nat)
    (pages : List RemRecord) : List RemEffect × RemStats :=
  let per := pages.map (process_record env dry_run hours)
  ((per.map Prod.fst).flatten,
    { (per.map Prod.snd).foldl RemStats.add {} with queried := pages.length })

/-! ## Inbound inspection handler (`src/lambda/app_inspect/handler.py`) -/

/-- The `event` dict of an `event_callback` body, projected to the fields
`_handle_message_event` reads. -/
structure SlackMessageEvent where
  type? : Option String
  bot_id? : Option String
  subtype? : Option String
  text? : Option String
  channel? : Option String
  user? : Option String
  ts? : Option String
deriving Repr, DecidableEq

/-- The parsed request body, projected to the fields `handler` reads. -/
structure InspectBody where
  type? : Option String
  challenge? : Option String
  event? : Option SlackMessageEvent
deriving Repr, DecidableEq

/-- An inbound API-Gateway event: its headers (as sent, possibly
mixed-case) and the JSON body; `none` models a missing or unparseable body
(`json.loads` failing makes `body = {}`). -/
structure InspectEvent where
  headers : List (String × String)
  bodyJson? : Option InspectBody
deriving Repr, DecidableEq

/-- The handler's HTTP response body (typed stand-in for the literal JSON
strings the code builds). -/
inductive InspectResp where
  | okText
  | challengeResp (s : String)
  | invalidSignature
  | okJson
deriving Repr, DecidableEq

/-- The externally observable processing steps named by the spec:
signature verification, the ledger duplicate check, running the detector,
the ledger record write (`create_violation_log`) and the admin chat message
(`notify_admin`).  Pure log/metric emission is not an effect here. -/
inductive InspectEffect where
  | verifySignature
  | duplicateCheck (ts : String)
  | detectCall (text : String)
  | ledgerWrite (post_id : String)
  | chatMessage (channel : String)
deriving Repr, DecidableEq

/-- External collaborators of the inspection handler: `sigOk` the signature
verdict, `botUserId` the cached `auth_test` identity, `monitored` the
`SLACK_MONITOR_CHANNEL_IDS` membership test, `isDup` the ledger duplicate
probe's verdict, `channelName` the `conversations_info` name (falling back
to the id on error), `detectCourse` the `_detect_course` lookup over the
`COURSE_CHANNEL_MAP` config string, `runDetect` the warm detector's
`detect`, `adminChannel` the `SLACK_ADMIN_CHANNEL_ID` config (may be
empty). -/
structure InspectEnv where
  sigOk : Bool
  botUserId : String
  monitored : String → Bool
  isDup : String → Bool
  channelName : String → String
  detectCourse : String → Option String
  runDetect : String → Option String → DetectionResult
  adminChannel : String

/-- `str.lower()` on an (ASCII) header key, character by character. -/
def pyLower (s : String) : String :=
  String.mk (s.toList.map Char.toLower)

/-- `{k.lower(): v for k, v in headers.items()}`. -/
def lowerHeaders (headers : List (String × String)) : List (String × String) :=
  headers.map fun p => (pyLower p.1, p.2)

/-- Python dict lookup over an association list built left to right (a later
binding of the same key overwrites an earlier one). -/
def pyDictGet (pairs : List (String × String)) (k : String) : Option String :=
  pairs.reverse.lookup k

/-- `_handle_message_event`: skip bot/subtyped messages, blank text, the
bot's own messages and unmonitored channels; then the duplicate check, the
course-scoped detection, and — on a violation — the ledger write followed by
the admin notification (attempted only when an admin channel is
configured). -/
def handle_message_event (env : InspectEnv) (ev : SlackMessageEvent) :
    List InspectEffect :=
  if pyTruthy ev.bot_id? || pyTruthy ev.subtype? then []
  else
    let text := ev.text?.getD ""
    if text.trim = "" then []
    else
      let channel_id := ev.channel?.getD ""
      let user_id := ev.user?.getD ""
      let message_ts := ev.ts?.getD ""
      if user_id == env.botUserId then []
      else if !env.monitored channel_id then []
      else
        .duplicateCheck message_ts ::
          (if env.isDup message_ts then []
           else
             let channel_name := env.channelName channel_id
             let course := env.detectCourse channel_name
             let res := env.runDetect text course
             .detectCall text ::
               (if !res.is_violation then []
                else
                  .ledgerWrite message_ts ::
                    (if env.adminChannel = "" then []
                     else [.chatMessage env.adminChannel])))

/-- `handler`: lower-case the header keys; a truthy `x-slack-retry-num`
header is acknowledged with 200/"ok" before anything else happens; then URL
verification, signature verification (401 on failure), and — for a
`message` event inside an `event_callback` — the message pipeline, whose
exceptions are swallowed before the final 200. -/
def inspect_handler (env : InspectEnv) (ev : InspectEvent) :
    (Nat × InspectResp) × List InspectEffect :=
  let headers := lowerHeaders ev.headers
  if (pyDictGet headers "x-slack-retry-num").getD "" != "" then
    ((200, .okText), [])
  else
    let body := ev.bodyJson?.getD ⟨none, none, none⟩
    if body.type? == some "url_verification" then
      ((200, .challengeResp (body.challenge?.getD "")), [])
    else
      if !env.sigOk then ((401, .invalidSignature), [.verifySignature])
      else
        let effs :=
          if body.type? == some "event_callback" then
            match body.event? with
            | some sev =>
              if sev.type? == some "message" then handle_message_event env sev
              else []
            | none => []
          else []
        ((200, .okJson), .verifySignature :: effs)

/-! ## Supporting lemmas -/

/-- The stored title keeps `post_id ++ ": "` intact whenever the id fits the
200-character truncation. -/
theorem mkViolationTitle_prefix (post_id c : PyStr)
    (h : post_id.length + 2 ≤ 200) :
    (post_id ++ (": ".toList)) <+: mkViolationTitle post_id c := by
  have hcolon : (": ".toList) = [':', ' '] := rfl
  have hlen : (post_id ++ (": ".toList)).length ≤ 200 := by
    simpa [hcolon] using h
  unfold mkViolationTitle
  rw [List.take_append_eq_append_take, List.take_of_length_le hlen]
  exact List.prefix_append _ _

/-- A postMessage effect discriminator. -/
def isPostMessage : AlertEffect → Bool
  | .postMessage _ _ _ => true
  | _ => false

/-! ## Claims -/

/-- C4: once `create_violation_log` has stored a record for `post_id`
(its title begins with `"<post_id>: "`), a second detection pass over the
same `post_id` observes `check_duplicate_violation post_id = true` (the
starts-with lookup finds the record) and therefore skips record creation,
leaving the ledger unchanged — at most one violation record per origin
message.  The hypothesis only asks that the id fit inside the
200-character title truncation, which every Slack message timestamp
(`digits.digits`, ≈ 17 characters) does. -/
theorem C4_second_pass_skips_creation (titles : List PyStr)
    (post_id c1 c2 : PyStr) (h : post_id.length + 2 ≤ 200) :
    ((post_id ++ (": ".toList)).isPrefixOf (mkViolationTitle post_id c1) = true) ∧
    check_duplicate_violation (create_violation_log titles post_id c1) post_id = true ∧
    detection_pass_dedup (create_violation_log titles post_id c1) post_id c2 =
      create_violation_log titles post_id c1 := by
  have hpref := mkViolationTitle_prefix post_id c1 h
  have hcolon : (post_id ++ [':']) <+: (post_id ++ (": ".toList)) := by
    have h2 := List.prefix_append (post_id ++ [':']) [' ']
    have : (post_id ++ [':']) ++ [' '] = post_id ++ (": ".toList) := by
      simp
    rwa [this] at h2
  have hdup : check_duplicate_violation (create_violation_log titles post_id c1)
      post_id = true := by
    unfold check_duplicate_violation create_violation_log
    rw [List.any_append]
    have : (post_id ++ [':']).isPrefixOf (mkViolationTitle post_id c1) = true :=
      List.isPrefixOf_iff_prefix.mpr (hcolon.trans hpref)
    simp [this]
  refine ⟨List.isPrefixOf_iff_prefix.mpr hpref, hdup, ?_⟩
  unfold detection_pass_dedup
  rw [hdup]
  simp

/-- Witness for C4 at the concrete timestamp `"100.1"`: the hypothesis holds
and the second pass leaves the one-record ledger unchanged. -/
theorem C4_second_pass_skips_creation_witness :
    (("100.1".toList).length + 2 ≤ 200) ∧
    check_duplicate_violation
      (create_violation_log [] ("100.1".toList) ("spam".toList))
      ("100.1".toList) = true ∧
    detection_pass_dedup
      (create_violation_log [] ("100.1".toList) ("spam".toList))
      ("100.1".toList) ("spam".toList) =
      create_violation_log [] ("100.1".toList) ("spam".toList) :=
  ⟨by decide,
    (C4_second_pass_skips_creation [] ("100.1".toList) ("spam".toList)
      ("spam".toList) (by decide)).2⟩

/-- C6: for a `block_actions` (or untyped) interactive payload, an empty or
missing `actions` list yields no `ActionContext`; a first action whose
`value` is a string that is not valid JSON (including the empty string,
which the code replaces by `"{}"`) yields an `ActionContext` whose value map
is empty — and `parse_action_context` is a total function, so no exception
escapes. -/
theorem C6_parse_action_context_failsoft
    (jsonLoads : String → Except String JsonVal) (payload : BlockActionsPayload)
    (htype : payload.type? = none ∨ payload.type? = some "block_actions") :
    (payload.actions?.getD [] = [] →
      parse_action_context jsonLoads payload = none) ∧
    (∀ a rest s, payload.actions? = some (a :: rest) →
      a.value? = some (.str s) →
      ((s = "" ∧ jsonLoads "{}" = .ok (.obj [])) ∨
        (s ≠ "" ∧ ∃ e, jsonLoads s = .error e)) →
      ∃ ctx, parse_action_context jsonLoads payload = some ctx ∧
        ctx.value = .obj []) := by
  have hguard : (match payload.type? with
      | some t => t != "block_actions"
      | none => false) = false := by
    rcases htype with h | h <;> simp [h]
  constructor
  · intro hempty
    unfold parse_action_context
    rw [hguard]
    simp only [Bool.false_eq_true, if_false]
    rw [hempty]
  · intro a rest s ha hv herr
    unfold parse_action_context
    rw [hguard]
    simp only [Bool.false_eq_true, if_false]
    rw [ha]
    simp only [Option.getD_some]
    rcases herr with ⟨hs, hok⟩ | ⟨hs, e, herr⟩
    · subst hs
      refine ⟨_, rfl, ?_⟩
      simp [hv, hok]
    · refine ⟨_, rfl, ?_⟩
      simp [hv, hs, herr]

/-- Witness for C6: a concrete empty-actions payload yields `none`, and a
concrete payload whose first action carries the non-JSON value `"not json"`
yields a context with an empty value map. -/
theorem C6_parse_action_context_failsoft_witness :
    (parse_action_context (fun t => if t = "{}" then .ok (.obj []) else .error "Expecting value")
      ⟨some "block_actions", some [], [], none⟩ = none) ∧
    (∃ ctx, parse_action_context
        (fun t => if t = "{}" then .ok (.obj []) else .error "Expecting value")
        ⟨some "block_actions",
          some [⟨some "approve_violation", some (.str "not json")⟩], [], none⟩ =
        some ctx ∧ ctx.value = .obj []) :=
  ⟨(C6_parse_action_context_failsoft _ _ (Or.inr rfl)).1 rfl,
    (C6_parse_action_context_failsoft _
        ⟨some "block_actions",
          some [⟨some "approve_violation", some (.str "not json")⟩], [], none⟩
        (Or.inr rfl)).2
      ⟨some "approve_violation", some (.str "not json")⟩ [] "not json" rfl rfl
      (Or.inr ⟨by decide, "Expecting value", by simp⟩)⟩

/-- C8: the dismiss handler never posts to the origin channel (for every
token and environment its effect trace contains no `chat_postMessage`); when
the decoded token carries a ledger key and the admin message coordinates are
present, it performs exactly one ledger status update to `"Dismissed"`
(recording the truthy responder id) and exactly one edit, of the admin alert
message only. -/
theorem C8_dismiss_no_origin_contact (env : AlertEnv) (ctx : ActionContext)
    (responder_id? : Option String) :
    ((handle_dismiss_violation env ctx responder_id?).2.countP isPostMessage = 0) ∧
    (∀ pid ach ats, tokenGetStr ctx.value "notion_page_id" = some pid →
      truthyOpt ctx.admin_channel = some ach →
      truthyOpt ctx.admin_message_ts = some ats →
      (handle_dismiss_violation env ctx responder_id?).2 =
        [.notionUpdate pid "Dismissed" false (responderArg responder_id?),
         .chatUpdate ach ats "Dismissed"]) := by
  constructor
  · unfold handle_dismiss_violation
    rcases tokenGetStr ctx.value "notion_page_id" with _ | pid <;>
      rcases truthyOpt ctx.admin_channel with _ | ach <;>
      rcases truthyOpt ctx.admin_message_ts with _ | ats <;>
      simp [isPostMessage]
  · intro pid ach ats hpid hach hats
    unfold handle_dismiss_violation
    rw [hpid, hach, hats]
    simp

/-- Witness for C8 at the spec's concrete token
`{origin_channel:"C1", origin_ts:"100.1", notion_page_id:"P1"}` with admin
coordinates `CA`/`200.2`: one Dismissed ledger update and one admin edit,
no origin reply. -/
theorem C8_dismiss_no_origin_contact_witness :
    ((handle_dismiss_violation ⟨true, true, true⟩
        { action_id := "dismiss_violation"
          value := .obj [("origin_channel", .str "C1"), ("origin_ts", .str "100.1"),
            ("notion_page_id", .str "P1")]
          admin_channel := some "CA"
          admin_message_ts := some "200.2" }
        (some "U1")).2.countP isPostMessage = 0) ∧
    (handle_dismiss_violation ⟨true, true, true⟩
        { action_id := "dismiss_violation"
          value := .obj [("origin_channel", .str "C1"), ("origin_ts", .str "100.1"),
            ("notion_page_id", .str "P1")]
          admin_channel := some "CA"
          admin_message_ts := some "200.2" }
        (some "U1")).2 =
      [.notionUpdate "P1" "Dismissed" false (responderArg (some "U1")),
       .chatUpdate "CA" "200.2" "Dismissed"] :=
  ⟨(C8_dismiss_no_origin_contact _ _ _).1,
    (C8_dismiss_no_origin_contact _ _ _).2 "P1" "CA" "200.2" (by rfl)
      (by rfl) (by rfl)⟩

/-- C3 (amended): with origin coordinates, ledger key and admin coordinates
present in the decoded token and the reply succeeding, the approve handler
attempts exactly one threaded reply to the origin message, then exactly one
ledger status update to Approved (recording `warning_sent_at` and the truthy
responder id), then exactly one admin-message edit — in that order.  A
ledger-write failure cannot revert the reply (the update's boolean result is
discarded and no compensating call exists in the trace); consequently the
admin edit is performed identically whether or not the ledger write
succeeded, and does not reflect a ledger failure. -/
theorem C3_approve_effect_order (env : AlertEnv) (ctx : ActionContext)
    (reply_text : String) (responder_id? : Option String)
    (ch ts pid ach ats : String)
    (hch : tokenGetStr ctx.value "origin_channel" = some ch)
    (hts : tokenGetStr ctx.value "origin_ts" = some ts)
    (hpid : tokenGetStr ctx.value "notion_page_id" = some pid)
    (hach : truthyOpt ctx.admin_channel = some ach)
    (hats : truthyOpt ctx.admin_message_ts = some ats)
    (hpost : env.postOk = true) :
    (handle_approve_violation env ctx reply_text responder_id?).2 =
      [.postMessage ch ts
          (build_warning_text (tokenGetStr ctx.value "origin_user")
            ctx.selected_regulation ctx.selected_article ctx.selected_item),
        .notionUpdate pid "Approved" true (responderArg responder_id?),
        .chatUpdate ach ats "Approved"] := by
  unfold handle_approve_violation
  rw [hch, hts, hpid, hach, hats, hpost]
  simp

/-- Witness for C3 (amended) at the spec's token
`{origin_channel:"C1", origin_ts:"100.1", notion_page_id:"P1"}` with admin
coordinates `CA`/`200.2`. -/
theorem C3_approve_effect_order_witness :
    (handle_approve_violation ⟨true, true, true⟩
        { action_id := "approve_violation"
          value := .obj [("origin_channel", .str "C1"), ("origin_ts", .str "100.1"),
            ("notion_page_id", .str "P1")]
          admin_channel := some "CA"
          admin_message_ts := some "200.2" } "" (some "U1")).2 =
      [.postMessage "C1" "100.1"
          (build_warning_text
            (tokenGetStr
              (.obj [("origin_channel", .str "C1"), ("origin_ts", .str "100.1"),
                ("notion_page_id", .str "P1")]) "origin_user")
            none none none),
        .notionUpdate "P1" "Approved" true (responderArg (some "U1")),
        .chatUpdate "CA" "200.2" "Approved"] :=
  C3_approve_effect_order ⟨true, true, true⟩ _ "" (some "U1") "C1" "100.1" "P1"
    "CA" "200.2" (by rfl) (by rfl) (by rfl) (by rfl) (by rfl) (by rfl)

/-- C3 counterexample: the claim additionally asserts that the admin edit
reflects a ledger failure; in the code `update_status`'s boolean result is
discarded, so with the spec's token the handler's entire output under a
failing ledger write (`updateOk := false`) is identical to the output under
a succeeding one, and the final admin edit is the unconditional
`"Approved"` completion edit in both. -/
theorem C3_admin_edit_ignores_ledger_failure :
    handle_approve_violation ⟨true, false, true⟩
        { action_id := "approve_violation"
          value := .obj [("origin_channel", .str "C1"), ("origin_ts", .str "100.1"),
            ("notion_page_id", .str "P1")]
          admin_channel := some "CA"
          admin_message_ts := some "200.2" } "" (some "U1") =
      handle_approve_violation ⟨true, true, true⟩
        { action_id := "approve_violation"
          value := .obj [("origin_channel", .str "C1"), ("origin_ts", .str "100.1"),
            ("notion_page_id", .str "P1")]
          admin_channel := some "CA"
          admin_message_ts := some "200.2" } "" (some "U1") ∧
    (handle_approve_violation ⟨true, false, true⟩
        { action_id := "approve_violation"
          value := .obj [("origin_channel", .str "C1"), ("origin_ts", .str "100.1"),
            ("notion_page_id", .str "P1")]
          admin_channel := some "CA"
          admin_message_ts := some "200.2" } "" (some "U1")).2.getLast? =
      some (.chatUpdate "CA" "200.2" "Approved") :=
  ⟨rfl, rfl⟩

/-- C2 (amended): if the chat-completion call raises, or returns nonempty
output that fails to parse as JSON (or parses to a non-dict, whose field
access raises inside the same `try`), the adjudication step returns the safe
default `is_violation=false, confidence=0, article_id=none, category=none,
reason=<error summary>`, and `detect` (a total function — no exception
reaches its caller) reports the same non-violation.  The amendment excludes
empty output, which the code maps to the field defaults instead (see the
counterexample). -/
theorem C2_adjudication_safe_default (env : DetectEnv)
    (patterns : List NgPattern) (articles : List Article) (cache : EmbCache)
    (text : String) (course? : Option String)
    (hng : check_ng_patterns env.rmatch patterns text course? = none)
    (herr : (∃ e, env.llmOutcome = .raise e) ∨
      (∃ s e, env.llmOutcome = .content s ∧ s ≠ "" ∧ env.jsonParse s = .error e)) :
    (judge_by_llm env.jsonParse env.llmOutcome).is_violation = false ∧
    (judge_by_llm env.jsonParse env.llmOutcome).confidence = 0 ∧
    (judge_by_llm env.jsonParse env.llmOutcome).article_id = none ∧
    (judge_by_llm env.jsonParse env.llmOutcome).category = none ∧
    (∃ e, (judge_by_llm env.jsonParse env.llmOutcome).reason =
      "LLM判定エラー: " ++ e) ∧
    (detect env patterns articles cache text course? false).result.is_violation = false ∧
    (detect env patterns articles cache text course? false).result.confidence = 0 ∧
    (detect env patterns articles cache text course? false).result.article_id = none := by
  obtain ⟨e, hv⟩ : ∃ e, judge_by_llm env.jsonParse env.llmOutcome =
      ⟨false, 0, none, none, "LLM判定エラー: " ++ e⟩ := by
    rcases herr with ⟨e, he⟩ | ⟨s, e, hs, hne, hp⟩
    · exact ⟨e, by rw [he]; rfl⟩
    · refine ⟨e, ?_⟩
      rw [hs]
      simp only [judge_by_llm]
      rw [if_neg hne, hp]
  have hres : (detect env patterns articles cache text course? false).result =
      ⟨false, 0, "LLM", none, none, "LLM判定エラー: " ++ e, 3⟩ := by
    unfold detect
    rw [hng]
    simp only [Bool.false_eq_true, if_false, hv, normalize_article_id]
  exact ⟨by rw [hv], by rw [hv], by rw [hv], by rw [hv], ⟨e, by rw [hv]⟩,
    by rw [hres], by rw [hres], by rw [hres]⟩

/-- Witness for C2 (amended): a concrete provider exception yields the safe
default through `judge_by_llm` and through `detect` (no NG patterns, no
articles). -/
theorem C2_adjudication_safe_default_witness :
    (judge_by_llm
        (fun _ => .error "boom")
        (.raise "connection reset")).confidence = 0 ∧
    (detect
        { rmatch := fun _ _ => some false
          embed := fun _ => []
          round3 := fun x => x
          jsonParse := fun _ => .error "boom"
          llmOutcome := .raise "connection reset"
          extractIdPrefix := fun _ => none }
        [] [] [] "hello" none false).result.is_violation = false :=
  ⟨(C2_adjudication_safe_default
      { rmatch := fun _ _ => some false
        embed := fun _ => []
        round3 := fun x => x
        jsonParse := fun _ => .error "boom"
        llmOutcome := .raise "connection reset"
        extractIdPrefix := fun _ => none }
      [] [] [] "hello" none rfl (Or.inl ⟨"connection reset", rfl⟩)).2.1,
    (C2_adjudication_safe_default
      { rmatch := fun _ _ => some false
        embed := fun _ => []
        round3 := fun x => x
        jsonParse := fun _ => .error "boom"
        llmOutcome := .raise "connection reset"
        extractIdPrefix := fun _ => none }
      [] [] [] "hello" none rfl (Or.inl ⟨"connection reset", rfl⟩)).2.2.2.2.2.1⟩

/-- C2 counterexample: the claim as stated covers *any* output that fails to
parse as JSON; the empty string is not valid JSON (the parser rejects it),
yet `_judge_by_llm` short-circuits `json.loads` on empty content
(`json.loads(content) if content else {}`) and returns the `r.get` defaults
`is_violation=false, confidence=0.5, reason=""` — not the safe default with
confidence 0. -/
theorem C2_empty_output_not_safe_default :
    ((fun _ : String => (Except.error "Expecting value" : Except String JudgeJson)) "" =
      .error "Expecting value") ∧
    judge_by_llm (fun _ => .error "Expecting value") (.content "") =
      ⟨false, 1/2, none, none, ""⟩ ∧
    (judge_by_llm (fun _ => .error "Expecting value") (.content "")).confidence ≠ 0 :=
  ⟨rfl, rfl, by norm_num [judge_by_llm]⟩

/-- C9: `detect` always stops at step 1 or step 3; it stops at step 1
exactly when the method is `"NGワード"` and at step 3 exactly when the method
is `"LLM"`; a step-1 violation carries confidence 1.0 and a non-null
article id; and in `skip_llm` mode a text matching no NG pattern yields
`is_violation = false` with confidence 0.0. -/
theorem C9_detect_step_invariants (env : DetectEnv) (patterns : List NgPattern)
    (articles : List Article) (cache : EmbCache) (text : String)
    (course? : Option String) (skip_llm : Bool) :
    ((detect env patterns articles cache text course? skip_llm).result.step_stopped = 1 ∨
      (detect env patterns articles cache text course? skip_llm).result.step_stopped = 3) ∧
    ((detect env patterns articles cache text course? skip_llm).result.step_stopped = 1 ↔
      (detect env patterns articles cache text course? skip_llm).result.method = "NGワード") ∧
    ((detect env patterns articles cache text course? skip_llm).result.step_stopped = 3 ↔
      (detect env patterns articles cache text course? skip_llm).result.method = "LLM") ∧
    ((detect env patterns articles cache text course? skip_llm).result.step_stopped = 1 →
      (detect env patterns articles cache text course? skip_llm).result.is_violation = true →
      (detect env patterns articles cache text course? skip_llm).result.confidence = 1 ∧
        (detect env patterns articles cache text course? skip_llm).result.article_id ≠ none) ∧
    (skip_llm = true →
      check_ng_patterns env.rmatch patterns text course? = none →
      (detect env patterns articles cache text course? skip_llm).result.is_violation = false ∧
        (detect env patterns articles cache text course? skip_llm).result.confidence = 0) := by
  rcases hc : check_ng_patterns env.rmatch patterns text course? with _ | m
  · cases skip_llm
    · have hres : (detect env patterns articles cache text course? false).result.step_stopped = 3 ∧
          (detect env patterns articles cache text course? false).result.method = "LLM" := by
        unfold detect
        rw [hc]
        simp
      refine ⟨Or.inr hres.1, ?_, ?_, ?_, ?_⟩
      · rw [hres.1, hres.2]
        simp
      · rw [hres.1, hres.2]
        simp
      · rw [hres.1]
        simp
      · intro h
        exact absurd h (by simp)
    · have hres : (detect env patterns articles cache text course? true).result =
          ⟨false, 0, "NGワード", none, none, "NGワードに該当なし", 1⟩ := by
        unfold detect
        rw [hc]
        rfl
      rw [hres]
      refine ⟨Or.inl rfl, by simp, by simp, ?_, fun _ _ => ⟨rfl, rfl⟩⟩
      intro _ hviol
      exact absurd hviol (by simp)
  · have hres : (detect env patterns articles cache text course? skip_llm).result.step_stopped = 1 ∧
        (detect env patterns articles cache text course? skip_llm).result.method = "NGワード" ∧
        (detect env patterns articles cache text course? skip_llm).result.confidence = 1 ∧
        (detect env patterns articles cache text course? skip_llm).result.article_id = some m.article_id ∧
        (detect env patterns articles cache text course? skip_llm).result.is_violation = true := by
      unfold detect
      rw [hc]
      exact ⟨rfl, rfl, rfl, rfl, rfl⟩
    obtain ⟨h1, h2, h3, h4, h5⟩ := hres
    refine ⟨Or.inl h1, ?_, ?_, ?_, ?_⟩
    · rw [h1, h2]
      simp
    · rw [h1, h2]
      simp
    · intro _ _
      rw [h3, h4]
      simp
    · intro _ hnone
      exact absurd hnone (by simp)

/-- Witness for C9 in `skip_llm` mode with no patterns: the step-1
non-violation with confidence 0. -/
theorem C9_detect_step_invariants_witness :
    (detect
        { rmatch := fun _ _ => some false
          embed := fun _ => []
          round3 := fun x => x
          jsonParse := fun _ => .error "boom"
          llmOutcome := .raise "down"
          extractIdPrefix := fun _ => none }
        [] [] [] "hello" none true).result.step_stopped = 1 ∧
    (detect
        { rmatch := fun _ _ => some false
          embed := fun _ => []
          round3 := fun x => x
          jsonParse := fun _ => .error "boom"
          llmOutcome := .raise "down"
          extractIdPrefix := fun _ => none }
        [] [] [] "hello" none true).result.is_violation = false ∧
    (detect
        { rmatch := fun _ _ => some false
          embed := fun _ => []
          round3 := fun x => x
          jsonParse := fun _ => .error "boom"
          llmOutcome := .raise "down"
          extractIdPrefix := fun _ => none }
        [] [] [] "hello" none true).result.confidence = 0 := by
  have h := C9_detect_step_invariants
    { rmatch := fun _ _ => some false
      embed := fun _ => []
      round3 := fun x => x
      jsonParse := fun _ => .error "boom"
      llmOutcome := .raise "down"
      extractIdPrefix := fun _ => none }
    [] [] [] "hello" none true
  have h5 := h.2.2.2.2 rfl rfl
  exact ⟨(h.2.1).mpr rfl, h5.1, h5.2⟩

/-- `_check_ng_patterns` returns the data of the first applicable matching
pattern: patterns before it that are inapplicable, non-matching, or
malformed (`rmatch _ _ = none`, i.e. `re.error`, swallowed) are passed
over. -/
theorem check_ng_patterns_first (rmatch : String → String → Option Bool)
    (text c : String) (hc : c ≠ "") (l1 l2 : List NgPattern) (p : NgPattern)
    (happ : (p.courses.getD ["ALL"]).contains "ALL" = true ∨
      (p.courses.getD ["ALL"]).contains c = true)
    (hmatch : rmatch p.pattern text = some true)
    (hfirst : ∀ q ∈ l1,
      ((q.courses.getD ["ALL"]).contains "ALL" = true ∨
        (q.courses.getD ["ALL"]).contains c = true) →
      rmatch q.pattern text ≠ some true) :
    check_ng_patterns rmatch (l1 ++ p :: l2) text (some c) =
      some ⟨p.pattern, p.article_id, p.category⟩ := by
  induction l1 with
  | nil =>
    have hskip : (c != "" && !(p.courses.getD ["ALL"]).contains "ALL" &&
        !(p.courses.getD ["ALL"]).contains c) = false := by
      rcases happ with h | h <;> rw [h] <;> simp
    rw [List.nil_append]
    simp only [check_ng_patterns]
    simp only [hskip]
    simp [hmatch]
  | cons q l1 ih =>
    have ihq := ih fun x hx hax => hfirst x (List.mem_cons_of_mem q hx) hax
    rw [List.cons_append]
    simp only [check_ng_patterns]
    by_cases hq : (c != "" && !(q.courses.getD ["ALL"]).contains "ALL" &&
        !(q.courses.getD ["ALL"]).contains c) = true
    · simp only [hq]
      simpa using ihq
    · have happq : (q.courses.getD ["ALL"]).contains "ALL" = true ∨
          (q.courses.getD ["ALL"]).contains c = true := by
        by_contra hcon
        push_neg at hcon
        simp only [Bool.not_eq_true] at hcon
        apply hq
        rw [hcon.1, hcon.2]
        simp [hc]
      have hnq := hfirst q (List.mem_cons_self q l1) happq
      rw [Bool.not_eq_true] at hq
      simp only [hq]
      rcases hm : rmatch q.pattern text with _ | b
      · simpa using ihq
      · cases b
        · simpa using ihq
        · exact absurd hm hnq

/-- C1: if some NG pattern applicable to the given course (courses list
containing `"ALL"` or the course) matches the text (case-insensitivity
lives inside the regex probe, which models `re.search(..., re.IGNORECASE)`),
`detect` returns `is_violation=true, confidence=1.0, method="NGワード",
step_stopped=1`, carries the article id and category of the *first*
applicable matching pattern in declaration order, and attempts no embedding
and no chat-completion call; earlier malformed patterns (a raised
`re.error`, `rmatch = none`) are skipped, never aborting the scan. -/
theorem C1_ng_match_short_circuits (env : DetectEnv)
    (articles : List Article) (cache : EmbCache) (text : String)
    (skip_llm : Bool) (c : String) (hc : c ≠ "")
    (l1 l2 : List NgPattern) (p : NgPattern)
    (happ : (p.courses.getD ["ALL"]).contains "ALL" = true ∨
      (p.courses.getD ["ALL"]).contains c = true)
    (hmatch : env.rmatch p.pattern text = some true)
    (hfirst : ∀ q ∈ l1,
      ((q.courses.getD ["ALL"]).contains "ALL" = true ∨
        (q.courses.getD ["ALL"]).contains c = true) →
      env.rmatch q.pattern text ≠ some true) :
    (detect env (l1 ++ p :: l2) articles cache text (some c) skip_llm).result.is_violation = true ∧
    (detect env (l1 ++ p :: l2) articles cache text (some c) skip_llm).result.confidence = 1 ∧
    (detect env (l1 ++ p :: l2) articles cache text (some c) skip_llm).result.method = "NGワード" ∧
    (detect env (l1 ++ p :: l2) articles cache text (some c) skip_llm).result.step_stopped = 1 ∧
    (detect env (l1 ++ p :: l2) articles cache text (some c) skip_llm).result.article_id =
      some p.article_id ∧
    (detect env (l1 ++ p :: l2) articles cache text (some c) skip_llm).result.category =
      some p.category ∧
    (detect env (l1 ++ p :: l2) articles cache text (some c) skip_llm).calls = [] := by
  have hng := check_ng_patterns_first env.rmatch text c hc l1 l2 p happ hmatch hfirst
  unfold detect
  rw [hng]
  exact ⟨rfl, rfl, rfl, rfl, rfl, rfl, rfl⟩

/-- Witness for C1: a malformed pattern (`"("`, probe raises `re.error`)
precedes the matching `"spam"` pattern; the scan is not aborted, the spam
pattern's data is returned decisively, and no provider call is made. -/
theorem C1_ng_match_short_circuits_witness :
    (detect
        { rmatch := fun p _ => if p = "(" then none else some (p = "spam")
          embed := fun _ => []
          round3 := fun x => x
          jsonParse := fun _ => .error "boom"
          llmOutcome := .raise "down"
          extractIdPrefix := fun _ => none }
        [⟨"(", "A-999", "bad", none⟩, ⟨"spam", "A-001", "宣伝", none⟩]
        [] [] "BUY SPAM NOW" (some "GCI") false).result.is_violation = true ∧
    (detect
        { rmatch := fun p _ => if p = "(" then none else some (p = "spam")
          embed := fun _ => []
          round3 := fun x => x
          jsonParse := fun _ => .error "boom"
          llmOutcome := .raise "down"
          extractIdPrefix := fun _ => none }
        [⟨"(", "A-999", "bad", none⟩, ⟨"spam", "A-001", "宣伝", none⟩]
        [] [] "BUY SPAM NOW" (some "GCI") false).result.article_id = some "A-001" ∧
    (detect
        { rmatch := fun p _ => if p = "(" then none else some (p = "spam")
          embed := fun _ => []
          round3 := fun x => x
          jsonParse := fun _ => .error "boom"
          llmOutcome := .raise "down"
          extractIdPrefix := fun _ => none }
        [⟨"(", "A-999", "bad", none⟩, ⟨"spam", "A-001", "宣伝", none⟩]
        [] [] "BUY SPAM NOW" (some "GCI") false).calls = [] := by
  have h := C1_ng_match_short_circuits
    { rmatch := fun p _ => if p = "(" then none else some (p = "spam")
      embed := fun _ => []
      round3 := fun x => x
      jsonParse := fun _ => .error "boom"
      llmOutcome := .raise "down"
      extractIdPrefix := fun _ => none }
    [] [] "BUY SPAM NOW" false "GCI" (by decide)
    [⟨"(", "A-999", "bad", none⟩] [] ⟨"spam", "A-001", "宣伝", none⟩
    (Or.inl (by decide))
    (by simp)
    (by
      intro q hq _
      simp only [List.mem_singleton] at hq
      subst hq
      simp)
  exact ⟨h.1, h.2.2.2.2.1, h.2.2.2.2.2.2⟩

/-- C10 (amended): an inbound event whose headers carry an
`x-slack-retry-num` entry (case-insensitive) with a *non-empty* value is
acknowledged with statusCode 200 and body `"ok"` before any processing: no
signature verification, no duplicate check, no detection, no ledger write
and no chat message appear in the trace.  (An entry with an empty value is
falsy in Python and is not treated as a retry — see the counterexample.) -/
theorem C10_retry_header_short_circuits (env : InspectEnv) (ev : InspectEvent)
    (v : String)
    (h : pyDictGet (lowerHeaders ev.headers) "x-slack-retry-num" = some v)
    (hv : v ≠ "") :
    inspect_handler env ev = ((200, .okText), []) := by
  simp only [inspect_handler]
  rw [h]
  simp only [Option.getD_some]
  rw [if_pos (by simpa using hv)]

/-- Witness for C10 (amended): a mixed-case `X-Slack-Retry-Num: 1` header is
dropped with 200/"ok" and an empty trace, whatever the body says. -/
theorem C10_retry_header_short_circuits_witness :
    inspect_handler
      { sigOk := true
        botUserId := "B1"
        monitored := fun _ => true
        isDup := fun _ => false
        channelName := fun c => c
        detectCourse := fun _ => none
        runDetect := fun _ _ => ⟨true, 1, "NGワード", some "A-001", none, "", 1⟩
        adminChannel := "CA" }
      { headers := [("Content-Type", "application/json"), ("X-Slack-Retry-Num", "1")]
        bodyJson? := some ⟨some "event_callback", none,
          some ⟨some "message", none, none, some "spam text", some "C1", some "U1",
            some "100.1"⟩⟩ } = ((200, .okText), []) :=
  C10_retry_header_short_circuits _ _ "1" rfl (by decide)

/-- C10 counterexample: the claim as stated covers *any* `x-slack-retry-num`
entry; with the entry present but empty (`""` is falsy) the handler does not
short-circuit: here the body is unparseable, the signature check runs (and
fails), and the response is 401 — not an immediate effect-free 200. -/
theorem C10_empty_retry_header_not_skipped :
    (("x-slack-retry-num", "") ∈
      ({ headers := [("x-slack-retry-num", "")], bodyJson? := none } : InspectEvent).headers) ∧
    inspect_handler
      { sigOk := false
        botUserId := "B1"
        monitored := fun _ => true
        isDup := fun _ => false
        channelName := fun c => c
        detectCourse := fun _ => none
        runDetect := fun _ _ => ⟨false, 0, "NGワード", none, none, "", 1⟩
        adminChannel := "CA" }
      { headers := [("x-slack-retry-num", "")], bodyJson? := none } =
      ((401, .invalidSignature), [.verifySignature]) :=
  ⟨List.mem_singleton.mpr rfl, rfl⟩


/-- Warning-send effect aimed at a given origin message. -/
def isSendWarningTo (ch ts : String) : RemEffect → Bool
  | .sendWarning c t => decide (c = ch ∧ t = ts)
  | _ => false

/-- Ledger status-update effect for a given page. -/
def isLedgerUpdateOf (pid : String) : RemEffect → Bool
  | .updateStatus p _ _ => decide (p = pid)
  | _ => false

/-- Reminder-flag update effect for a given page. -/
def isMarkRemindedOf (pid : String) : RemEffect → Bool
  | .markReminded p => decide (p = pid)
  | _ => false

/-- The loop body, on a never-warned record whose origin message exists and
whose warning send succeeds: exactly the warning send followed by the
Approved update recording `warning_sent_at`, with the `warned` counter
incremented. -/
theorem process_record_warn (env : RemEnv) (hours : Nat) (r : RemRecord)
    (ch ts : String) (ws : Option String)
    (hw : r.warning_sent_at = none)
    (hlink : env.parseLink r.post_link = some (ch, ts, ws))
    (hex : env.messageExists ch ts = true)
    (hsend : env.warnOk ch ts = true) :
    process_record env false hours r =
      ([.sendWarning ch ts, .updateStatus r.page_id "Approved" true],
        {warned := 1}) := by
  unfold process_record
  rw [hlink]
  simp [hex, hw, hsend]

/-- Targeting facts for a single `sendWarning` effect. -/
theorem effect_targets_sendWarning (env : RemEnv) (q : RemRecord)
    (c2 t2 : String) (w2 : Option String)
    (hp : env.parseLink q.post_link = some (c2, t2, w2)) :
    (∀ p s w, RemEffect.sendWarning c2 t2 = .updateStatus p s w → p = q.page_id) ∧
    (∀ p, RemEffect.sendWarning c2 t2 = .markReminded p → p = q.page_id) ∧
    (∀ c t, RemEffect.sendWarning c2 t2 = .sendWarning c t ∨
        RemEffect.sendWarning c2 t2 = .sendReminder c t →
      ∃ ws2, env.parseLink q.post_link = some (c, t, ws2)) := by
  refine ⟨fun p s w h => ?_, fun p h => ?_, fun c t h => ?_⟩
  · cases h
  · cases h
  · rcases h with h | h
    · injection h with h1 h2
      subst h1
      subst h2
      exact ⟨w2, hp⟩
    · cases h

/-- Targeting facts for a single `sendReminder` effect. -/
theorem effect_targets_sendReminder (env : RemEnv) (q : RemRecord)
    (c2 t2 : String) (w2 : Option String)
    (hp : env.parseLink q.post_link = some (c2, t2, w2)) :
    (∀ p s w, RemEffect.sendReminder c2 t2 = .updateStatus p s w → p = q.page_id) ∧
    (∀ p, RemEffect.sendReminder c2 t2 = .markReminded p → p = q.page_id) ∧
    (∀ c t, RemEffect.sendReminder c2 t2 = .sendWarning c t ∨
        RemEffect.sendReminder c2 t2 = .sendReminder c t →
      ∃ ws2, env.parseLink q.post_link = some (c, t, ws2)) := by
  refine ⟨fun p s w h => ?_, fun p h => ?_, fun c t h => ?_⟩
  · cases h
  · cases h
  · rcases h with h | h
    · cases h
    · injection h with h1 h2
      subst h1
      subst h2
      exact ⟨w2, hp⟩

/-- Targeting facts for a single `updateStatus` effect on the record's own
page. -/
theorem effect_targets_updateStatus (env : RemEnv) (q : RemRecord)
    (s0 : String) (w0 : Bool) :
    (∀ p s w, RemEffect.updateStatus q.page_id s0 w0 = .updateStatus p s w →
      p = q.page_id) ∧
    (∀ p, RemEffect.updateStatus q.page_id s0 w0 = .markReminded p →
      p = q.page_id) ∧
    (∀ c t, RemEffect.updateStatus q.page_id s0 w0 = .sendWarning c t ∨
        RemEffect.updateStatus q.page_id s0 w0 = .sendReminder c t →
      ∃ ws2, env.parseLink q.post_link = some (c, t, ws2)) := by
  refine ⟨fun p s w h => ?_, fun p h => ?_, fun c t h => ?_⟩
  · injection h with h1 h2 h3
    exact h1.symm
  · cases h
  · rcases h with h | h <;> cases h

/-- Targeting facts for a single `markReminded` effect on the record's own
page. -/
theorem effect_targets_markReminded (env : RemEnv) (q : RemRecord) :
    (∀ p s w, RemEffect.markReminded q.page_id = .updateStatus p s w →
      p = q.page_id) ∧
    (∀ p, RemEffect.markReminded q.page_id = .markReminded p →
      p = q.page_id) ∧
    (∀ c t, RemEffect.markReminded q.page_id = .sendWarning c t ∨
        RemEffect.markReminded q.page_id = .sendReminder c t →
      ∃ ws2, env.parseLink q.post_link = some (c, t, ws2)) := by
  refine ⟨fun p s w h => ?_, fun p h => ?_, fun c t h => ?_⟩
  · cases h
  · injection h with h1
    exact h1.symm
  · rcases h with h | h <;> cases h

/-- Every effect the loop body emits for a record addresses that record:
ledger effects carry its page id, sends go to the coordinates its link
parses to. -/
theorem process_record_effect_targets (env : RemEnv) (dry : Bool)
    (hours : Nat) (q : RemRecord) (e : RemEffect)
    (he : e ∈ (process_record env dry hours q).1) :
    (∀ p s w, e = .updateStatus p s w → p = q.page_id) ∧
    (∀ p, e = .markReminded p → p = q.page_id) ∧
    (∀ c t, e = .sendWarning c t ∨ e = .sendReminder c t →
      ∃ ws2, env.parseLink q.post_link = some (c, t, ws2)) := by
  unfold process_record at he
  rcases Option.eq_none_or_eq_some (env.parseLink q.post_link) with hp | ⟨⟨c2, t2, w2⟩, hp⟩ <;>
    rw [hp] at he
  · simp at he
  · rcases hw : q.warning_sent_at with _ | w
    · cases hmex : env.messageExists c2 t2 <;> cases hdry : dry <;>
        cases hwo : env.warnOk c2 t2 <;>
        simp only [hw, hmex, hdry, hwo] at he <;> simp at he <;>
        (try rcases he with rfl | rfl) <;>
        first
          | exact effect_targets_sendWarning env q c2 t2 w2 hp
          | exact effect_targets_sendReminder env q c2 t2 w2 hp
          | exact effect_targets_updateStatus env q _ _
          | exact effect_targets_markReminded env q
    · cases hmex : env.messageExists c2 t2 <;> cases hdry : dry <;>
        cases hip : env.isPast w hours <;> cases hro : env.remindOk c2 t2 <;>
        simp only [hw, hmex, hdry, hip, hro] at he <;> simp at he <;>
        (try rcases he with rfl | rfl) <;>
        first
          | exact effect_targets_sendWarning env q c2 t2 w2 hp
          | exact effect_targets_sendReminder env q c2 t2 w2 hp
          | exact effect_targets_updateStatus env q _ _
          | exact effect_targets_markReminded env q

/-- A count over a flattened list vanishes when it vanishes per block. -/
theorem countP_flatten_zero {α : Type} (p : α → Bool) (L : List (List α))
    (h : ∀ l ∈ L, l.countP p = 0) : L.flatten.countP p = 0 := by
  rw [List.countP_eq_zero]
  intro a ha
  rcases List.mem_flatten.mp ha with ⟨l, hl, hal⟩
  exact List.countP_eq_zero.mp (h l hl) a hal

/-- A record with a different page id whose link parses elsewhere
contributes no warning send to the given coordinates and no ledger effect
for the given page. -/
theorem process_record_countP_other (env : RemEnv) (dry : Bool) (hours : Nat)
    (q : RemRecord) (pid ch ts : String)
    (hpid : q.page_id ≠ pid)
    (hlink : ∀ ws2, env.parseLink q.post_link ≠ some (ch, ts, ws2)) :
    (process_record env dry hours q).1.countP (isSendWarningTo ch ts) = 0 ∧
    (process_record env dry hours q).1.countP (isLedgerUpdateOf pid) = 0 ∧
    (process_record env dry hours q).1.countP (isMarkRemindedOf pid) = 0 := by
  refine ⟨List.countP_eq_zero.mpr fun e he => ?_,
    List.countP_eq_zero.mpr fun e he => ?_,
    List.countP_eq_zero.mpr fun e he => ?_⟩ <;>
    intro hpred <;>
    obtain ⟨hupd, hmark, hsend⟩ := process_record_effect_targets env dry hours q e he
  · cases e <;> simp [isSendWarningTo] at hpred
    case sendWarning c t =>
      obtain ⟨rfl, rfl⟩ := hpred
      obtain ⟨ws2, hws⟩ := hsend _ _ (Or.inl rfl)
      exact hlink ws2 hws
  · cases e <;> simp [isLedgerUpdateOf] at hpred
    case updateStatus p s0 w0 =>
      exact hpid ((hupd p s0 w0 rfl) ▸ hpred ▸ rfl)
  · cases e <;> simp [isMarkRemindedOf] at hpred
    case markReminded p =>
      exact hpid ((hmark p rfl) ▸ hpred ▸ rfl)

/-- C5: over one non-dry sweep pass, a queried record (status Approved,
reminder-flag false by the query) with `warning_sent_at` null, a parseable
post link and a still-existing origin message receives exactly one warning
send to its origin coordinates and exactly one ledger update — the Approved
status rewrite that sets `warning_sent_at` — while no reminder-flag write
for it occurs, and the `warned` counter is incremented for that record.
The side hypotheses say the ledger rows are distinct pages and no other row
links to the same origin message. -/
theorem C5_sweep_warns_once (env : RemEnv) (hours : Nat)
    (pages : List RemRecord) (r : RemRecord) (ch ts : String)
    (ws : Option String)
    (hmem : r ∈ pages)
    (hnodup : (pages.map RemRecord.page_id).Nodup)
    (huniq : ∀ q ∈ pages, q.page_id ≠ r.page_id →
      ∀ ws2, env.parseLink q.post_link ≠ some (ch, ts, ws2))
    (hw : r.warning_sent_at = none)
    (hlink : env.parseLink r.post_link = some (ch, ts, ws))
    (hex : env.messageExists ch ts = true)
    (hsend : env.warnOk ch ts = true) :
    (process_reminders env false hours pages).1.countP (isSendWarningTo ch ts) = 1 ∧
    (process_reminders env false hours pages).1.countP (isLedgerUpdateOf r.page_id) = 1 ∧
    RemEffect.updateStatus r.page_id "Approved" true ∈
      (process_reminders env false hours pages).1 ∧
    (process_reminders env false hours pages).1.countP (isMarkRemindedOf r.page_id) = 0 ∧
    (process_record env false hours r).2.warned = 1 := by
  obtain ⟨s, t, rfl⟩ := List.append_of_mem hmem
  have hr := process_record_warn env hours r ch ts ws hw hlink hex hsend
  have hflat : (process_reminders env false hours (s ++ r :: t)).1 =
      ((s.map fun q => (process_record env false hours q).1).flatten) ++
      ((process_record env false hours r).1 ++
        ((t.map fun q => (process_record env false hours q).1).flatten)) := by
    unfold process_reminders
    simp [List.map_map, Function.comp]
    rfl
  rw [List.map_append, List.map_cons] at hnodup
  have hnd := List.nodup_append.mp hnodup
  have hnotins : r.page_id ∉ s.map RemRecord.page_id := fun hin =>
    hnd.2.2 hin (List.mem_cons_self _ _)
  have hnotint : r.page_id ∉ t.map RemRecord.page_id :=
    (List.nodup_cons.mp hnd.2.1).1
  have hqs : ∀ q ∈ s, q.page_id ≠ r.page_id := by
    intro q hq heq
    exact hnotins (heq ▸ List.mem_map_of_mem RemRecord.page_id hq)
  have hqt : ∀ q ∈ t, q.page_id ≠ r.page_id := by
    intro q hq heq
    exact hnotint (heq ▸ List.mem_map_of_mem RemRecord.page_id hq)
  have hcnt : ∀ q, q.page_id ≠ r.page_id → (q ∈ s ∨ q ∈ t) →
      (process_record env false hours q).1.countP (isSendWarningTo ch ts) = 0 ∧
      (process_record env false hours q).1.countP (isLedgerUpdateOf r.page_id) = 0 ∧
      (process_record env false hours q).1.countP (isMarkRemindedOf r.page_id) = 0 := by
    intro q hne hmem2
    refine process_record_countP_other env false hours q r.page_id ch ts hne
      (huniq q ?_ hne)
    rcases hmem2 with h | h
    · exact List.mem_append_left _ h
    · exact List.mem_append_right _ (List.mem_cons_of_mem _ h)
  have hzero : ∀ pred : RemEffect → Bool,
      (∀ q, (q ∈ s ∨ q ∈ t) → (process_record env false hours q).1.countP pred = 0) →
      (s.map fun q => (process_record env false hours q).1).flatten.countP pred = 0 ∧
      (t.map fun q => (process_record env false hours q).1).flatten.countP pred = 0 := by
    intro pred hq
    constructor
    · refine countP_flatten_zero _ _ ?_
      intro l hl
      rcases List.mem_map.mp hl with ⟨q, hqmem, rfl⟩
      exact hq q (Or.inl hqmem)
    · refine countP_flatten_zero _ _ ?_
      intro l hl
      rcases List.mem_map.mp hl with ⟨q, hqmem, rfl⟩
      exact hq q (Or.inr hqmem)
  have hz1 := hzero (isSendWarningTo ch ts) fun q hq2 =>
    (hcnt q (by rcases hq2 with h | h; exacts [hqs q h, hqt q h]) hq2).1
  have hz2 := hzero (isLedgerUpdateOf r.page_id) fun q hq2 =>
    (hcnt q (by rcases hq2 with h | h; exacts [hqs q h, hqt q h]) hq2).2.1
  have hz3 := hzero (isMarkRemindedOf r.page_id) fun q hq2 =>
    (hcnt q (by rcases hq2 with h | h; exacts [hqs q h, hqt q h]) hq2).2.2
  refine ⟨?_, ?_, ?_, ?_, ?_⟩
  · rw [hflat, List.countP_append, List.countP_append, hz1.1, hz1.2, hr]
    simp [isSendWarningTo]
  · rw [hflat, List.countP_append, List.countP_append, hz2.1, hz2.2, hr]
    simp [isLedgerUpdateOf]
  · rw [hflat, hr]
    simp
  · rw [hflat, List.countP_append, List.countP_append, hz3.1, hz3.2, hr]
    simp [isMarkRemindedOf]
  · rw [hr]

/-- A one-record environment for exercising the sweep concretely. -/
def c5WitnessEnv : RemEnv :=
  { parseLink := fun l =>
      if l = some "https://myws.slack.com/archives/C1/p1000000000000001" then
        some ("C1", "100.1", some "myws")
      else none
    messageExists := fun _ _ => true
    warnOk := fun _ _ => true
    remindOk := fun _ _ => true
    isPast := fun _ _ => false
    markOk := fun _ => true }

/-- A ledger row as returned by the Approved-and-unreminded query, never
warned, with a parseable link. -/
def c5WitnessRecord : RemRecord :=
  { page_id := "P1"
    post_link := some "https://myws.slack.com/archives/C1/p1000000000000001"
    warning_sent_at := none
    poster := some "U1"
    title := "100.1: spam"
    article_id := some "A-001" }

/-- Witness for C5 on a one-record batch: one warning send, one Approved
update setting `warning_sent_at`, no reminder-flag write, `warned` = 1. -/
theorem C5_sweep_warns_once_witness :
    (process_reminders c5WitnessEnv false 48 [c5WitnessRecord]).1.countP
      (isSendWarningTo "C1" "100.1") = 1 ∧
    (process_reminders c5WitnessEnv false 48 [c5WitnessRecord]).1.countP
      (isLedgerUpdateOf "P1") = 1 ∧
    RemEffect.updateStatus "P1" "Approved" true ∈
      (process_reminders c5WitnessEnv false 48 [c5WitnessRecord]).1 ∧
    (process_reminders c5WitnessEnv false 48 [c5WitnessRecord]).1.countP
      (isMarkRemindedOf "P1") = 0 ∧
    (process_record c5WitnessEnv false 48 c5WitnessRecord).2.warned = 1 :=
  C5_sweep_warns_once c5WitnessEnv 48 [c5WitnessRecord] c5WitnessRecord
    "C1" "100.1" (some "myws")
    (List.mem_singleton.mpr rfl)
    (by simp)
    (by
      intro q hq hne
      rw [List.mem_singleton.mp hq] at hne
      exact absurd rfl hne)
    rfl rfl rfl rfl

/-- A sum of squares is nonnegative. -/
theorem sumSq_nonneg (v : List ℝ) : 0 ≤ sumSq v := by
  refine List.sum_nonneg ?_
  intro x hx
  rcases List.mem_map.mp hx with ⟨a, _, rfl⟩
  exact mul_self_nonneg a

/-- The zip-dot-product is symmetric (the zip truncates identically on both
sides). -/
theorem dotList_comm (v1 : List ℝ) : ∀ v2, dotList v1 v2 = dotList v2 v1 := by
  induction v1 with
  | nil =>
    intro v2
    cases v2 <;> simp [dotList]
  | cons a t1 ih =>
    intro v2
    cases v2 with
    | nil => simp [dotList]
    | cons b t2 =>
      have e1 : dotList (a :: t1) (b :: t2) = a * b + dotList t1 t2 := by
        simp [dotList]
      have e2 : dotList (b :: t2) (a :: t1) = b * a + dotList t2 t1 := by
        simp [dotList]
      rw [e1, e2, ih t2, mul_comm]

/-- Cauchy-Schwarz for the zip-dot-product of lists. -/
theorem dotList_sq_le (v1 : List ℝ) : ∀ v2 : List ℝ,
    (dotList v1 v2) ^ 2 ≤ sumSq v1 * sumSq v2 := by
  induction v1 with
  | nil =>
    intro v2
    simp [dotList, sumSq]
  | cons a t1 ih =>
    intro v2
    cases v2 with
    | nil => simp [dotList, sumSq]
    | cons b t2 =>
      have hd := ih t2
      have h1 := sumSq_nonneg t1
      have h2 := sumSq_nonneg t2
      have hdot : dotList (a :: t1) (b :: t2) = a * b + dotList t1 t2 := by
        simp [dotList]
      have hs1 : sumSq (a :: t1) = a * a + sumSq t1 := by
        simp [sumSq]
      have hs2 : sumSq (b :: t2) = b * b + sumSq t2 := by
        simp [sumSq]
      rw [hdot, hs1, hs2]
      by_cases hz : sumSq t1 = 0
      · have hdz : dotList t1 t2 = 0 := by
          nlinarith [sq_nonneg (dotList t1 t2)]
        rw [hz, hdz]
        nlinarith [mul_nonneg (mul_self_nonneg a) h2]
      · have hpos : 0 < sumSq t1 := lt_of_le_of_ne h1 (Ne.symm hz)
        nlinarith [sq_nonneg (a * dotList t1 t2 - b * sumSq t1),
          mul_nonneg (add_nonneg (mul_self_nonneg a) h1) (sub_nonneg.mpr hd),
          hpos]

/-- The dot product is bounded by the product of the norms. -/
theorem abs_dotList_le (v1 v2 : List ℝ) :
    |dotList v1 v2| ≤ Real.sqrt (sumSq v1) * Real.sqrt (sumSq v2) := by
  have h := dotList_sq_le v1 v2
  calc |dotList v1 v2| = Real.sqrt ((dotList v1 v2) ^ 2) :=
        (Real.sqrt_sq_eq_abs _).symm
    _ ≤ Real.sqrt (sumSq v1 * sumSq v2) := Real.sqrt_le_sqrt h
    _ = Real.sqrt (sumSq v1) * Real.sqrt (sumSq v2) :=
        Real.sqrt_mul (sumSq_nonneg v1) _

/-- C7: the cosine-similarity of the detector is symmetric and bounded in
[-1, 1] for all vectors, and whenever either vector's norm
(`math.sqrt(sum(a*a ...))`) is zero the result is exactly 0 — the guard
`if n1 and n2` makes the division-by-zero branch unreachable, so no
exception can arise (real-number division idealises the float division that
the guarded branch performs). -/
theorem C7_cosine_sim_properties (v1 v2 : List ℝ) :
    cosine_sim v1 v2 = cosine_sim v2 v1 ∧
    (-1 ≤ cosine_sim v1 v2 ∧ cosine_sim v1 v2 ≤ 1) ∧
    (Real.sqrt (sumSq v1) = 0 ∨ Real.sqrt (sumSq v2) = 0 →
      cosine_sim v1 v2 = 0) := by
  have hcs : ∀ w1 w2 : List ℝ, cosine_sim w1 w2 =
      if Real.sqrt (sumSq w1) = 0 ∨ Real.sqrt (sumSq w2) = 0 then 0
      else dotList w1 w2 / (Real.sqrt (sumSq w1) * Real.sqrt (sumSq w2)) :=
    fun w1 w2 => rfl
  refine ⟨?_, ?_, ?_⟩
  · rw [hcs v1 v2, hcs v2 v1]
    exact if_congr or_comm rfl (by rw [dotList_comm, mul_comm])
  · rw [hcs v1 v2]
    split_ifs with h
    · norm_num
    · push_neg at h
      have hn1 : 0 < Real.sqrt (sumSq v1) :=
        lt_of_le_of_ne (Real.sqrt_nonneg _) (Ne.symm h.1)
      have hn2 : 0 < Real.sqrt (sumSq v2) :=
        lt_of_le_of_ne (Real.sqrt_nonneg _) (Ne.symm h.2)
      have hpos : 0 < Real.sqrt (sumSq v1) * Real.sqrt (sumSq v2) :=
        mul_pos hn1 hn2
      have habs : |dotList v1 v2 / (Real.sqrt (sumSq v1) * Real.sqrt (sumSq v2))| ≤ 1 := by
        rw [abs_div, abs_of_pos hpos]
        exact div_le_one_of_le₀ (abs_dotList_le v1 v2) hpos.le
      exact abs_le.mp habs
  · intro h
    rw [hcs v1 v2, if_pos h]

/-- Witness for C7 at the zero vector `[0]` against `[1]`: the norm of the
zero vector is 0 and the similarity is exactly 0. -/
theorem C7_cosine_sim_properties_witness :
    Real.sqrt (sumSq [(0 : ℝ)]) = 0 ∧ cosine_sim [(0 : ℝ)] [(1 : ℝ)] = 0 := by
  have hz : Real.sqrt (sumSq [(0 : ℝ)]) = 0 := by
    have : sumSq [(0 : ℝ)] = 0 := by simp [sumSq]
    rw [this, Real.sqrt_zero]
  exact ⟨hz, (C7_cosine_sim_properties [(0 : ℝ)] [(1 : ℝ)]).2.2 (Or.inl hz)⟩
